import Mathlib

/-!
Verification of the scheduling/booking core of the `prismadetailer` Django
backend against its natural-language specification.

Shallow embedding conventions
* Times of day are minutes after midnight (`Nat`).  Python's
  `datetime.time(h, m)` constructor raises `ValueError` when `h >= 24`; every
  place where the source builds a `time` from computed minutes is modelled by
  an explicit `1440 <=` check, and a raised exception is modelled by `none`
  (an `Option` result).  Comparison of `time` objects in Python is
  lexicographic on `(hour, minute)`, which coincides with `Nat` comparison of
  total minutes.
* The `"HH:MM"` strings the view stores in slot dictionaries are kept as the
  underlying minute values: for valid times `strftime`/`strptime` are inverse
  to each other and zero-padded string comparison agrees with numeric
  comparison.
* Django querysets over the `Detailer`, `Availability` and `Job` tables are
  embedded as Lean lists in table order; `filter(...)` is `List.filter`,
  `first()` is the list head, `exists()` is non-emptiness.
* `availability.py` queries jobs through the `primary_detailer` foreign
  key, embedded as the `detailer` field of `Job`.  `booking.py:133` instead
  filters on a keyword `detailer=` that the `Job` model does not have
  (`models.py` defines only the `detailers` many-to-many and the
  `primary_detailer` foreign key), so that queryset construction raises
  `FieldError` on every call; the embedding of `_create_booking` models
  this raised-and-caught exception, behind which the conflict recheck and
  the `Job.objects.create(detailer=...)` insert are unreachable dead code.
* The haversine distance of `geo_utils.py` is floating point; it enters the
  code only through the comparison `dist <= radius_km`, so the embedding
  abstracts it as a rational-valued parameter `dist : Detailer -> Rat`
  standing for the distance from the query point to a worker.
-/

namespace Prisma

/-- Status column of `Job` (`models.py`, `STATUS_CHOICES`). -/
inductive JobStatus where
  | pending
  | accepted
  | in_progress
  | completed
  | cancelled
deriving DecidableEq, Repr

/-- A candidate time slot as built by `_generate_time_slots`
(`availability.py`): start/end in minutes after midnight plus the constant
`is_available` flag the view stores in the dictionary. -/
structure Slot where
  start_time : Nat
  end_time : Nat
  is_available : Bool
deriving DecidableEq, Repr

/-- The fields of a `Job` row read by the scheduling core: the assigned
worker (`primary_detailer` in `availability.py`, `detailer=` keyword in
`booking.py`), the appointment day, the start time of day in minutes, the
duration in minutes of the job's own service type
(`job.service_type.duration`), and the status. -/
structure Job where
  detailer : Nat
  appointment_date : Nat
  appointment_time : Nat
  duration : Nat
  status : JobStatus
deriving DecidableEq, Repr

/-- The fields of a `Detailer` row used by the matching code
(`models.py`). Coordinates are optional. -/
structure Detailer where
  id : Nat
  country : String
  city : String
  is_active : Bool
  is_verified : Bool
  is_available : Bool
  latitude : Option Rat
  longitude : Option Rat
deriving DecidableEq, Repr

/-- An `Availability` row (`models.py`): an explicit working window of a
worker for one date. -/
structure Availability where
  detailer : Nat
  date : Nat
  start_time : Nat
  end_time : Nat
  is_available : Bool
deriving DecidableEq, Repr

/-- Which tier of `find_detailers_for_location` produced the result
(`detailer_matcher.py` returns the strings `"exact"`, `"normalized"`,
`"radius"`). -/
inductive MatchMethod where
  | exact
  | normalized
  | radius
deriving DecidableEq, Repr

/-! ## String helpers

Python's `str.strip()` and `str.lower()` (and Django's `__iexact`) are
embedded by structural recursion over the character list so that concrete
instances evaluate inside the kernel; `pyStrip` removes leading and
trailing whitespace, `pyLower` lowercases character-wise. -/

/-- Python `str.strip()`: drop surrounding whitespace. -/
def pyStrip (s : String) : String :=
  ⟨((s.data.dropWhile Char.isWhitespace).reverse.dropWhile Char.isWhitespace).reverse⟩

/-- Python `str.lower()`: character-wise lowercasing. -/
def pyLower (s : String) : String :=
  ⟨s.data.map Char.toLower⟩

/-! ## City normalization (`city_normalization.py`) -/

/-- The static locality-to-city alias table `CITY_NORMALIZATION`. -/
def CITY_NORMALIZATION : List (String × String) :=
  [("ballentree village", "dublin"),
   ("south dublin", "dublin"),
   ("dún laoghaire-rathdown", "dublin"),
   ("dun laoghaire-rathdown", "dublin"),
   ("fingal", "dublin"),
   ("dublin city", "dublin"),
   ("county dublin", "dublin"),
   ("ranelagh", "dublin"),
   ("rathmines", "dublin"),
   ("ballsbridge", "dublin"),
   ("sandymount", "dublin"),
   ("clontarf", "dublin"),
   ("phibsborough", "dublin"),
   ("drimnagh", "dublin"),
   ("crumlin", "dublin"),
   ("tallaght", "dublin"),
   ("blanchardstown", "dublin"),
   ("swords", "dublin"),
   ("dún laoghaire", "dublin"),
   ("dun laoghaire", "dublin")]

/-- Embeds `normalize_city_for_matching`: look the trimmed, lowercased city up in
the alias table; on a hit return the mapped city, otherwise the trimmed
input.  An empty input is returned unchanged (`return city or ""`). -/
def normalize_city_for_matching (city : String) : String :=
  if city = "" then ""
  else
    match CITY_NORMALIZATION.lookup (pyLower (pyStrip city)) with
    | some mapped => mapped
    | none => pyStrip city

/-! ## Location resolver (`detailer_matcher.py`, `geo_utils.py`) -/

/-- Django `__iexact`: case-insensitive string equality. -/
def iexact (a b : String) : Bool :=
  pyLower a == pyLower b

/-- The `apply_filters` closure of `find_detailers_for_location`: restrict a
queryset by `is_available` when the caller asked for it. -/
def applyAvail (is_available : Option Bool) (qs : List Detailer) : List Detailer :=
  match is_available with
  | none => qs
  | some b => qs.filter (fun d => d.is_available == b)

/-- The exact-match queryset `Detailer.objects.filter(country__iexact=...,
city__iexact=..., is_active=True, is_verified=True)` used by steps 1 and 2 of
the resolver. -/
def exactCityQuery (db : List Detailer) (country city : String) : List Detailer :=
  db.filter (fun d =>
    iexact d.country country && iexact d.city city && d.is_active && d.is_verified)

/-- Embeds `get_detailers_within_radius` (`geo_utils.py`): workers with known
coordinates, active and verified, optionally filtered by country
(case-insensitive, trimmed) and availability, whose distance from the query
point (the abstracted haversine value `dist d`) is at most `radius_km`. -/
def get_detailers_within_radius (db : List Detailer) (dist : Detailer → Rat)
    (radius_km : Rat) (country : String) (is_available : Option Bool) :
    List Detailer :=
  let base := db.filter (fun d =>
    d.latitude.isSome && d.longitude.isSome && d.is_active && d.is_verified)
  let base := if country ≠ "" then
      base.filter (fun d => iexact d.country (pyStrip country))
    else base
  let base := applyAvail is_available base
  base.filter (fun d => decide (dist d ≤ radius_km))

/-- Embeds `find_detailers_for_location` (`detailer_matcher.py`): three-tier
fallback returning the matched workers and the tier that matched. -/
def find_detailers_for_location (db : List Detailer) (country city : String)
    (latitude longitude : Option Rat) (is_available : Option Bool)
    (radius_km : Rat) (dist : Detailer → Rat) :
    List Detailer × Option MatchMethod :=
  if country = "" ∨ city = "" then ([], none)
  else
    let c := pyStrip country
    let ci := pyStrip city
    let step1 := applyAvail is_available (exactCityQuery db c ci)
    if step1 = [] then
      let normalized_city := normalize_city_for_matching ci
      let step2 := applyAvail is_available (exactCityQuery db c normalized_city)
      if normalized_city ≠ "" ∧ normalized_city ≠ ci ∧ step2 ≠ [] then
        (step2, some .normalized)
      else
        match latitude, longitude with
        | some _, some _ =>
          let step3 := get_detailers_within_radius db dist radius_km c is_available
          if step3 = [] then ([], none) else (step3, some .radius)
        | _, _ => ([], none)
    else (step1, some .exact)

/-! ## Slot generator (`availability.py`, `_generate_time_slots`) -/

/-- One `while current_time < end_time` loop of `_generate_time_slots`.
`fuel` bounds the number of iterations; the wrapper passes `1441`, which is
never exhausted because each iteration either stops or moves `current`
strictly forward below `1440` (the degenerate `service_duration +
travel_interval = 0` case, where the Python loop never terminates, is
modelled as `none`).  `none` also models the `ValueError` raised by
`time(m // 60, m % 60)` when the computed minutes reach `1440`; the
exception aborts the whole call, so no partial list survives it. -/
def generateLoop (service_duration travel_interval end_total : Nat) :
    Nat → Nat → Option (List Slot)
  | 0, _ => none
  | fuel + 1, current =>
    if current < end_total then
      let end_minutes := current + service_duration
      if end_total < end_minutes then some []
      else if 1440 ≤ end_minutes then none
      else
        let next_start_minutes := end_minutes + travel_interval
        if 1440 ≤ next_start_minutes then none
        else
          match generateLoop service_duration travel_interval end_total fuel
              next_start_minutes with
          | none => none
          | some rest => some (⟨current, end_minutes, true⟩ :: rest)
    else some []

/-- Embeds `_generate_time_slots(start_time, end_time, service_duration,
travel_interval)`: fixed-length slots from `start_time`, advancing by
`service_duration + travel_interval`, stopping once a slot would end past
`end_time`.  `none` models a raised `ValueError` (see `generateLoop`). -/
def generate_time_slots (start_time end_time service_duration travel_interval : Nat) :
    Option (List Slot) :=
  generateLoop service_duration travel_interval end_time 1441 start_time

/-- Stable insertion of a slot into a list sorted by `start_time`; together
with `sortByStart` this models Python's stable `sorted(..., key=lambda x:
x['start_time'])` (string order on zero-padded `"HH:MM"` agrees with the
numeric order used here). -/
def insertByStart (s : Slot) : List Slot → List Slot
  | [] => [s]
  | t :: rest =>
    if s.start_time ≤ t.start_time then s :: t :: rest
    else t :: insertByStart s rest

/-- Sort slots by start time (stable, see `insertByStart`). -/
def sortByStart : List Slot → List Slot
  | [] => []
  | s :: rest => insertByStart s (sortByStart rest)

/-- Deduplication loop of `_generate_slots_from_availability`: keep the
first occurrence of each `(start_time, end_time)` key. -/
def dedupByTimeGo : List Slot → List (Nat × Nat) → List Slot
  | [], _ => []
  | s :: rest, seen =>
    if (s.start_time, s.end_time) ∈ seen then dedupByTimeGo rest seen
    else s :: dedupByTimeGo rest ((s.start_time, s.end_time) :: seen)

/-- The `seen_times` deduplication of `_generate_slots_from_availability`. -/
def dedupByTime (l : List Slot) : List Slot :=
  dedupByTimeGo l []

/-- Concatenate the per-window slot lists of
`_generate_slots_from_availability`; a `ValueError` in any window aborts the
whole call.  (The per-slot `detailer_id` annotation the Python code adds is
dropped: it is read by nothing downstream — deduplication keys on the times
and `_calculate_available_slots` strips everything but the times.) -/
def gatherWindowSlots (service_duration travel_interval : Nat) :
    List Availability → Option (List Slot)
  | [] => some []
  | w :: rest =>
    match generate_time_slots w.start_time w.end_time service_duration
        travel_interval,
      gatherWindowSlots service_duration travel_interval rest with
    | some s, some r => some (s ++ r)
    | _, _ => none

/-- Embeds `_generate_slots_from_availability`: union of the per-window sequences,
sorted by start time and deduplicated by `(start, end)`. -/
def generate_slots_from_availability (rows : List Availability)
    (service_duration travel_interval : Nat) : Option (List Slot) :=
  match gatherWindowSlots service_duration travel_interval rows with
  | none => none
  | some l => some (dedupByTime (sortByStart l))

/-! ## Conflict filter (`availability.py`, `_calculate_available_slots`) -/

/-- The per-job body of the baseline conflict loop: compute the job's end
from the job's own service-type duration, add the travel interval, and test
`slot_start < travel_end and slot_end > job_start`.  Each of the two
`time(...)` constructions raises (`none`) when its minutes reach `1440`. -/
def jobConflict (slot_start slot_end travel_interval : Nat) (j : Job) :
    Option Bool :=
  let job_end_minutes := j.appointment_time + j.duration
  if 1440 ≤ job_end_minutes then none
  else
    let travel_end_minutes := job_end_minutes + travel_interval
    if 1440 ≤ travel_end_minutes then none
    else some (decide (slot_start < travel_end_minutes) &&
      decide (j.appointment_time < slot_end))

/-- The baseline `for job in existing_jobs` loop: stop at the first
conflicting job; a raised `ValueError` (`none`) aborts everything. -/
def checkConflicts (slot_start slot_end travel_interval : Nat) :
    List Job → Option Bool
  | [] => some false
  | j :: rest =>
    match jobConflict slot_start slot_end travel_interval j with
    | none => none
    | some true => some true
    | some false => checkConflicts slot_start slot_end travel_interval rest

/-- The inner loop of the express check: over the jobs of one worker with
`appointment_time <= slot_end` (the queryset filter is inlined into the
traversal), test the same overlap condition, the single
`time(conflict_end_minutes // 60, ...)` construction raising at `1440`. -/
def expressHasConflict (slot_start slot_end travel_interval det : Nat) :
    List Job → Option Bool
  | [] => some false
  | j :: rest =>
    if j.detailer = det ∧ j.appointment_time ≤ slot_end then
      let conflict_end_minutes := j.appointment_time + j.duration + travel_interval
      if 1440 ≤ conflict_end_minutes then none
      else if slot_start < conflict_end_minutes ∧ j.appointment_time < slot_end then
        some true
      else expressHasConflict slot_start slot_end travel_interval det rest
    else expressHasConflict slot_start slot_end travel_interval det rest

/-- The `available_detailers_count` value: number of candidate workers free of
conflicts at the slot. -/
def countAvailableDetailers (slot_start slot_end travel_interval : Nat)
    (jobs : List Job) : List Nat → Option Nat
  | [] => some 0
  | det :: rest =>
    match expressHasConflict slot_start slot_end travel_interval det jobs with
    | none => none
    | some hc =>
      match countAvailableDetailers slot_start slot_end travel_interval jobs rest with
      | none => none
      | some n => some (if hc then n else n + 1)

/-- Whether one candidate slot is flagged conflicting by
`_calculate_available_slots`: baseline loop first, then — only when the
baseline passed, `is_express_service` is set and the `detailers` argument is
truthy — the express count with its `< 1` fallback threshold. -/
def slotIsConflicting (jobs : List Job) (travel_interval : Nat)
    (is_express_service : Bool) (detailers : List Nat) (s : Slot) :
    Option Bool :=
  match checkConflicts s.start_time s.end_time travel_interval jobs with
  | none => none
  | some true => some true
  | some false =>
    if is_express_service && !detailers.isEmpty then
      match countAvailableDetailers s.start_time s.end_time travel_interval
          jobs detailers with
      | none => none
      | some n => some (decide (n < 1))
    else some false

/-- Embeds `_calculate_available_slots(all_slots, existing_jobs, service_duration,
travel_interval, is_express_service, detailers)`: keep the non-conflicting
slots, re-emitted as clean `(start, end, True)` dictionaries.  The
`service_duration` parameter is accepted but, as in the source, never read.
`none` models a `ValueError` escaping the loop. -/
def calculate_available_slots (all_slots : List Slot) (existing_jobs : List Job)
    (service_duration travel_interval : Nat) (is_express_service : Bool)
    (detailers : List Nat) : Option (List Slot) :=
  match all_slots with
  | [] => some []
  | s :: rest =>
    match slotIsConflicting existing_jobs travel_interval is_express_service
        detailers s with
    | none => none
    | some true =>
      calculate_available_slots rest existing_jobs service_duration
        travel_interval is_express_service detailers
    | some false =>
      match calculate_available_slots rest existing_jobs service_duration
          travel_interval is_express_service detailers with
      | none => none
      | some r => some (⟨s.start_time, s.end_time, true⟩ :: r)

/-! ## Booking transaction (`booking.py`, `_create_booking`) -/

/-- The booking request fields that reach the scheduling logic:
`service_type.duration` looked up from the named service type, the parsed
booking date and start/end times, and the client location strings. -/
structure BookingRequest where
  service_duration : Nat
  booking_date : Nat
  start_time : Nat
  end_time : Nat
  country : String
  city : String
deriving DecidableEq, Repr

/-- The detailer queryset of `_create_booking`:
`Detailer.objects.filter(country=..., city=..., is_active=True,
is_verified=True, is_available=True)` — note the case-sensitive `country=`
and `city=` lookups, unlike the resolver's `__iexact`. -/
def bookingEligible (db : List Detailer) (country city : String) : List Detailer :=
  db.filter (fun d =>
    d.country == country && d.city == city && d.is_active && d.is_verified &&
      d.is_available)

/-- Outcomes of `_create_booking` as the source text enumerates them: the
400 "No available detailers found in city, country", the 400 "No detailers
available for the specified time", the 201 with a created job assigned to
a worker, and the 400 from an exception caught by the outer handler.  Only
`noDetailers` and `errorResponse` are reachable (see `create_booking`);
`timeConflict` and `created` are kept so that their unreachability can be
stated. -/
inductive BookingOutcome where
  | noDetailers
  | timeConflict
  | created (detailerId : Nat)
  | errorResponse
deriving DecidableEq, Repr

/-- Embeds `_create_booking` (the scheduling part, after the service-type
lookup and the date/time parsing have succeeded): trim the location and run
the case-sensitive eligibility queryset.  An empty set answers the
"no available detailers" 400.  Otherwise the code takes the first worker
and then builds `Job.objects.filter(detailer=detailer, ...)`
(`booking.py:133`) — but `Job` has no field named `detailer` (`models.py`
defines only the `detailers` many-to-many and the `primary_detailer`
foreign key), so Django raises `FieldError` while resolving the keyword;
the outer `except Exception` handler turns this into the generic 400.  The
conflict recheck loop (`booking.py:139-153`) and
`Job.objects.create(detailer=..., ...)` (`booking.py:180`) sit behind that
raise and are unreachable: no request is ever answered with a time
conflict, no worker is ever assigned, and no booking row is ever stored —
which is why the job table argument is never consulted. -/
def create_booking (req : BookingRequest) (db : List Detailer)
    (jobs : List Job) : BookingOutcome :=
  let country := pyStrip req.country
  let city := pyStrip req.city
  match bookingEligible db country city with
  | [] => .noDetailers
  | _ :: _ => .errorResponse

/-! ## The read endpoint (`availability.py`, `get_timeslots`) -/

/-- Client-error kinds of `get_timeslots`: the missing-parameters 400, the
bad-date-format 400, and the 400 produced when a `ValueError` (a failed
`int(...)` or `time(...)` construction) reaches the outer handler. -/
inductive ErrorKind where
  | missingParams
  | badDate
  | invalidParameter
deriving DecidableEq, Repr

/-- Responses of `get_timeslots`: a 400 client error, the 200
"no active detailers found" answer with an empty slot list, the 200
"no available slots" answer, or a 200 with the computed slots. -/
inductive SlotsResponse where
  | clientError (kind : ErrorKind)
  | okNoDetailers
  | okNoSlots
  | okSlots (slots : List Slot)
deriving DecidableEq, Repr

/-- The query parameters of `get_timeslots` after the surrounding I/O:
`date` is `none` when absent or empty, `some none` when present but not of
the form `YYYY-MM-DD` (so `strptime` raises), `some (some n)` when it
parses to day `n`; `service_duration` is `none` when absent (default 60),
`some none` when `int(...)` raises, `some (some v)` otherwise;
`latitude`/`longitude` are the parsed optional floats; the
`is_express_service` flag is parsed from the query string. -/
structure TimeslotsRequest where
  date : Option (Option Nat)
  service_duration : Option (Option Nat)
  country : Option String
  city : Option String
  latitude : Option Rat
  longitude : Option Rat
  is_express_service : Bool
deriving DecidableEq, Repr

/-- Embeds `Availability.objects.filter(detailer__in=detailers, date=target_date,
is_available=True)`. -/
def availabilityRows (detailers : List Detailer) (target_date : Nat)
    (avails : List Availability) : List Availability :=
  avails.filter (fun a =>
    detailers.any (fun d => d.id == a.detailer) && a.date == target_date &&
      a.is_available)

/-- Embeds `Job.objects.filter(primary_detailer__in=detailers,
appointment_date__date=target_date, status__in=['accepted', 'in_progress',
'pending'])`. -/
def liveJobsRows (detailers : List Detailer) (target_date : Nat)
    (jobs : List Job) : List Job :=
  jobs.filter (fun j =>
    detailers.any (fun d => d.id == j.detailer) &&
      j.appointment_date == target_date &&
      (j.status == .accepted || j.status == .in_progress ||
        j.status == .pending))

/-- The view's location-parameter normalization
(`availability.py:74-75` with the `all([...])` check of line 91):
`data.get('country').strip() if data.get('country') else None` makes an
absent or falsy raw value `None` and strips the rest, and `all` then treats
a string that stripped down to empty exactly like `None` — so a
whitespace-only country or city also takes the missing-parameters 400. -/
def normParam (o : Option String) : Option String :=
  match o with
  | none => none
  | some s => if pyStrip s = "" then none else some (pyStrip s)

/-- The body of `get_timeslots` after the duration has been read: validate
parameters, resolve workers, build candidate slots (default business hours
06:00-21:00 when no availability row applies), and filter them against the
live jobs of the matched workers.  Matching the source, the parsed express
flag is NOT forwarded to `_calculate_available_slots`, which therefore runs
with its defaults `is_express_service=False`, `detailers=None`. -/
def get_timeslotsCore (service_duration : Nat) (date_raw : Option (Option Nat))
    (country_raw city_raw : Option String) (latitude longitude : Option Rat)
    (db : List Detailer) (avails : List Availability) (jobs : List Job)
    (dist : Detailer → Rat) : SlotsResponse :=
  let country := normParam country_raw
  let city := normParam city_raw
  match date_raw, country, city with
  | some dr, some c, some ci =>
    match dr with
    | none => .clientError .badDate
    | some target_date =>
      let detailers :=
        (find_detailers_for_location db c ci latitude longitude none 30 dist).1
      if detailers = [] then .okNoDetailers
      else
        let detailer_availability := availabilityRows detailers target_date avails
        let all_slots :=
          if detailer_availability = [] then
            generate_time_slots 360 1260 service_duration 30
          else
            generate_slots_from_availability detailer_availability
              service_duration 30
        match all_slots with
        | none => .clientError .invalidParameter
        | some slots =>
          let existing_jobs := liveJobsRows detailers target_date jobs
          match calculate_available_slots slots existing_jobs service_duration
              30 false [] with
          | none => .clientError .invalidParameter
          | some available_slots =>
            if available_slots = [] then .okNoSlots
            else .okSlots available_slots
  | _, _, _ => .clientError .missingParams

/-- Embeds `get_timeslots`: read `service_duration` first (`int(...)` raising goes
to the outer `except ValueError` before anything else), then run the body.
The record's `is_express_service` field is never read, mirroring the source
which parses the flag but does not pass it on. -/
def get_timeslots (req : TimeslotsRequest) (db : List Detailer)
    (avails : List Availability) (jobs : List Job) (dist : Detailer → Rat) :
    SlotsResponse :=
  match req.service_duration with
  | some none => .clientError .invalidParameter
  | none =>
    get_timeslotsCore 60 req.date req.country req.city req.latitude
      req.longitude db avails jobs dist
  | some (some v) =>
    get_timeslotsCore v req.date req.country req.city req.latitude
      req.longitude db avails jobs dist

/-! ## Theorems -/

/-- C1: the claim says that of two concurrent `CreateBooking` calls for the
same worker and the same free slot exactly one succeeds and the other gets
a "slot no longer available" failure.  No `CreateBooking` call can succeed
at all: once a worker matches, `booking.py:133` builds
`Job.objects.filter(detailer=...)` against a field `Job` does not have,
the raised `FieldError` is caught by the outer handler, and the request
gets the generic 400 before any recheck or insert.  Both concurrent
requests therefore evaluate identically against the never-written store
and both fail — shown here by evaluating the call on a matching worker and
an empty calendar (the state either concurrent request observes). -/
theorem booking_race_neither_succeeds :
    create_booking ⟨60, 0, 600, 660, "Ireland", "Dublin"⟩
      [⟨1, "Ireland", "Dublin", true, true, true, none, none⟩] [] =
      .errorResponse := by
  decide

/-- C4: the claim says the booking transaction's recheck is extensionally
equal to the section-4.4 conflict filter and rejects the request iff the
requested interval overlaps a live occupied interval.  The recheck never
runs: `Job.objects.filter(detailer=...)` at `booking.py:133` raises
`FieldError` (the `Job` model has no `detailer` field), so every request
with a non-empty eligible set is rejected with the generic 400 regardless
of overlap.  At the failing input — one matching worker, an empty job
table, request 10:00-11:00 — the section-4.4 filter reports no conflict
and keeps the slot, yet the transaction still rejects, so the two checks
are not extensionally equal.  (The dead recheck text is itself also not
the 4.4 test: `booking.py:142` adds the new request's duration to existing
jobs' starts instead of each job's own duration.) -/
theorem booking_recheck_never_runs :
    checkConflicts 600 660 30 [] = some false ∧
    calculate_available_slots [⟨600, 660, true⟩] [] 60 30 false [] =
      some [⟨600, 660, true⟩] ∧
    create_booking ⟨60, 0, 600, 660, "Ireland", "Dublin"⟩
      [⟨1, "Ireland", "Dublin", true, true, true, none, none⟩] [] =
      .errorResponse := by
  decide

/-- C5 counterexample: the claim says `CreateBooking` draws its primary
worker from the section-4.2 resolver's eligible set (case-insensitive,
with alias and radius fallbacks) and selects the first conflict-free one.
With the sole worker stored under city "dublin" and a request for city
"Dublin", the resolver (with the booking availability filter) returns that
worker via its exact tier, and the worker is conflict-free per the
section-4.4 test (no jobs exist at all), yet `_create_booking`'s
case-sensitive `city=` queryset is empty and the request is rejected with
"no available detailers": no worker is selected. -/
theorem booking_selection_not_resolver :
    create_booking ⟨60, 0, 600, 660, "Ireland", "Dublin"⟩
      [⟨1, "Ireland", "dublin", true, true, true, none, none⟩] [] =
        .noDetailers ∧
    find_detailers_for_location
      [⟨1, "Ireland", "dublin", true, true, true, none, none⟩]
      "Ireland" "Dublin" none none (some true) 30 (fun _ => 0) =
        ([⟨1, "Ireland", "dublin", true, true, true, none, none⟩],
          some .exact) ∧
    checkConflicts 600 660 30 [] = some false := by
  decide

/-- C7 counterexample: the claim says a worker stored in "Ballentree
Village" is returned for a query with city "Dublin" via the normalized
tier.  The code normalizes the QUERY city, not the workers' stored cities:
`normalize_city_for_matching "Dublin"` returns "Dublin" unchanged (the
alias table maps suburbs to "dublin" but has no entry for "dublin"
itself), so tier 2 is skipped and the resolver returns the empty set with
no tier — even though the worker's raw city does normalize to "dublin". -/
theorem normalized_tier_direction_counterexample :
    find_detailers_for_location
      [⟨1, "Ireland", "Ballentree Village", true, true, true, none, none⟩]
      "Ireland" "Dublin" none none none 30 (fun _ => 0) = ([], none) ∧
    normalize_city_for_matching "Ballentree Village" = "dublin" := by
  decide

/-- C7 amended: the alias table works in the query-to-store direction — a
client whose address city is "Ballentree Village" is matched, via the
normalized tier, to workers registered under city "Dublin" (the stored
city is compared case-insensitively against the mapped name "dublin"),
even though no worker matches "Ballentree Village" verbatim. -/
theorem normalized_tier_query_side :
    find_detailers_for_location
      [⟨1, "Ireland", "Dublin", true, true, true, none, none⟩]
      "Ireland" "Ballentree Village" none none none 30 (fun _ => 0) =
      ([⟨1, "Ireland", "Dublin", true, true, true, none, none⟩],
        some .normalized) := by
  decide

/-- C9 counterexample: the claim says every request with service duration
<= 0 is rejected as a client error before any computation.  A request with
`service_duration=0` (date, country and city all valid, one matching
worker) is not rejected: `get_timeslots` returns HTTP 200 with thirty
zero-length slots. -/
theorem zero_duration_not_rejected :
    get_timeslots
      ⟨some (some 0), some (some 0), some "Ireland", some "Dublin",
        none, none, false⟩
      [⟨1, "Ireland", "Dublin", true, true, true, none, none⟩] [] []
      (fun _ => 0) =
      .okSlots ((List.range 30).map (fun i => ⟨360 + 30 * i, 360 + 30 * i, true⟩)) := by
  decide

/-- C10 counterexample: the claim says the time-of-day arithmetic is the
only source of failure — the Booking Transaction's recheck fails when a
live booking's own end reaches 24:00, and under the precondition that
every live booking plus its buffer ends strictly before 24:00 the error
branch is unreachable.  Neither holds of the booking path, because the
recheck never executes: the jobs queryset at `booking.py:133` names a
field `Job` does not have and every request with a matching worker gets
the generic 400.  With worker 1 holding a single accepted job at 10:00 of
duration 60 — every live booking plus buffer ends 11:30, well before
24:00 — a 20-minute booking request for 06:00-06:20 still fails, and with
the 23:00/duration-120 overflow booking instead it fails identically (the
overflow plays no role), while `get_timeslots` over the same overflow
state does fail with the invalid-parameter error as the claim says. -/
theorem booking_overflow_not_failing :
    create_booking ⟨20, 0, 360, 380, "Ireland", "Dublin"⟩
      [⟨1, "Ireland", "Dublin", true, true, true, none, none⟩]
      [⟨1, 0, 600, 60, .accepted⟩] = .errorResponse ∧
    create_booking ⟨20, 0, 360, 380, "Ireland", "Dublin"⟩
      [⟨1, "Ireland", "Dublin", true, true, true, none, none⟩]
      [⟨1, 0, 1380, 120, .accepted⟩] = .errorResponse ∧
    get_timeslots
      ⟨some (some 0), some (some 20), some "Ireland", some "Dublin",
        none, none, false⟩
      [⟨1, "Ireland", "Dublin", true, true, true, none, none⟩] []
      [⟨1, 0, 1380, 120, .accepted⟩] (fun _ => 0) =
      .clientError .invalidParameter := by
  decide

/-- C2: the conflict filter removes a candidate `[s, e)` against a live
booking starting at `b_s` with own duration `dur` exactly when
`s < b_s + dur + 30` and `e > b_s`: the 30-minute buffer is added only
after the booking's trailing edge (`b_e = b_s + dur`), never in front of
the candidate.  (Hypothesis: the booking plus its buffer ends within the
day, the domain on which the `time` constructions are defined; the
out-of-range case is the subject of C10.) -/
theorem conflict_filter_overlap_iff (s e b_s dur sd det date : Nat)
    (st : JobStatus) (hval : b_s + dur + 30 < 1440) :
    calculate_available_slots [⟨s, e, true⟩] [⟨det, date, b_s, dur, st⟩]
        sd 30 false [] =
      some (if s < b_s + dur + 30 ∧ b_s < e then [] else [⟨s, e, true⟩]) := by
  have h1 : ¬ (1440 ≤ b_s + dur) := by omega
  have h2 : ¬ (1440 ≤ b_s + dur + 30) := by omega
  by_cases hc1 : s < b_s + dur + 30 <;> by_cases hc2 : b_s < e <;>
    simp [calculate_available_slots, slotIsConflicting, checkConflicts,
      jobConflict, h1, h2, hc1, hc2]

/-- Witness for C2 at the spec's worked example: against the booking
10:00-11:00 (own duration 60) with the 30-minute buffer, the candidate
11:15-12:15 is removed (11:15 < 11:30) and 11:30-12:30 is kept. -/
theorem conflict_filter_overlap_iff_witness :
    calculate_available_slots [⟨675, 735, true⟩] [⟨1, 0, 600, 60, .accepted⟩]
        60 30 false [] = some [] ∧
    calculate_available_slots [⟨690, 750, true⟩] [⟨1, 0, 600, 60, .accepted⟩]
        60 30 false [] = some [⟨690, 750, true⟩] := by
  constructor
  · rw [conflict_filter_overlap_iff 675 735 600 60 60 1 0 JobStatus.accepted
      (by omega)]
    decide
  · rw [conflict_filter_overlap_iff 690 750 600 60 60 1 0 JobStatus.accepted
      (by omega)]
    decide

/-- A per-job baseline pass (`some false`) means both `time` constructions
succeeded and the overlap test failed. -/
theorem jobConflict_some_false {s e travel : Nat} {j : Job}
    (h : jobConflict s e travel j = some false) :
    j.appointment_time + j.duration + travel < 1440 ∧
      ¬(s < j.appointment_time + j.duration + travel ∧ j.appointment_time < e) := by
  simp only [jobConflict] at h
  split_ifs at h with h1 h2
  · refine ⟨by omega, ?_⟩
    intro hcontra
    simp [hcontra.1, hcontra.2] at h

/-- A baseline pass over a job list passes on every member. -/
theorem checkConflicts_false_forall {s e travel : Nat} :
    ∀ {jobs : List Job}, checkConflicts s e travel jobs = some false →
      ∀ j ∈ jobs, jobConflict s e travel j = some false := by
  intro jobs
  induction jobs with
  | nil => intro _ j hj; cases hj
  | cons j rest ih =>
    intro h j' hj'
    rw [checkConflicts] at h
    cases hjc : jobConflict s e travel j with
    | none => rw [hjc] at h; cases h
    | some c =>
      rw [hjc] at h
      cases c with
      | true => cases h
      | false =>
        cases hj' with
        | head => exact hjc
        | tail _ hmem => exact ih h j' hmem

/-- If every job passed the baseline test, the express per-worker loop also
reports no conflict (its single `time` construction uses the same minutes
value and its overlap test is the same). -/
theorem expressHasConflict_false {s e travel det : Nat} :
    ∀ {jobs : List Job},
      (∀ j ∈ jobs, jobConflict s e travel j = some false) →
      expressHasConflict s e travel det jobs = some false := by
  intro jobs
  induction jobs with
  | nil => intro _; rfl
  | cons j rest ih =>
    intro h
    obtain ⟨hj1, hj2⟩ := jobConflict_some_false (h j (List.mem_cons_self j rest))
    have hrest : ∀ j' ∈ rest, jobConflict s e travel j' = some false :=
      fun j' hm => h j' (List.mem_cons_of_mem j hm)
    by_cases hg : j.detailer = det ∧ j.appointment_time ≤ e
    · have hce : ¬ (1440 ≤ j.appointment_time + j.duration + travel) := by omega
      simp only [expressHasConflict, if_pos hg, if_neg hce, if_neg hj2]
      exact ih hrest
    · simp only [expressHasConflict, if_neg hg]
      exact ih hrest

/-- If every job passed the baseline test, the express count equals the
number of candidate workers. -/
theorem countAvailableDetailers_all {s e travel : Nat} {jobs : List Job}
    (h : ∀ j ∈ jobs, jobConflict s e travel j = some false) :
    ∀ dets : List Nat,
      countAvailableDetailers s e travel jobs dets = some dets.length := by
  intro dets
  induction dets with
  | nil => rfl
  | cons det rest ih =>
    unfold countAvailableDetailers
    rw [expressHasConflict_false h, ih]
    simp

/-- The express flag cannot change the verdict on a single slot. -/
theorem slotIsConflicting_express_irrelevant (jobs : List Job) (travel : Nat)
    (dets : List Nat) (s : Slot) :
    slotIsConflicting jobs travel true dets s =
      slotIsConflicting jobs travel false dets s := by
  unfold slotIsConflicting
  cases hcc : checkConflicts s.start_time s.end_time travel jobs with
  | none => rfl
  | some c =>
    cases c with
    | true => rfl
    | false =>
      by_cases hd : dets.isEmpty
      · simp [hd]
      · simp only [Bool.true_and, Bool.false_and, hd, Bool.not_false,
          if_true, if_false, Bool.false_eq_true]
        rw [countAvailableDetailers_all (checkConflicts_false_forall hcc) dets]
        have hlen : ¬ (dets.length < 1) := by
          cases dets with
          | nil => simp at hd
          | cons a l => simp
        simp [hlen]

/-- Express never changes the output of `_calculate_available_slots`. -/
theorem calculate_express_eq (jobs : List Job) (sd travel : Nat)
    (dets : List Nat) : ∀ slots : List Slot,
      calculate_available_slots slots jobs sd travel true dets =
        calculate_available_slots slots jobs sd travel false dets := by
  intro slots
  induction slots with
  | nil => rfl
  | cons s rest ih =>
    unfold calculate_available_slots
    rw [slotIsConflicting_express_irrelevant, ih]

/-- C8: the express flag never removes a slot the plain conflict filter
would return.  Stronger, it never changes the result at all: (1) for every
input, `_calculate_available_slots` with `is_express_service=True` returns
exactly the `is_express_service=False` result — when the baseline passes a
slot, every candidate worker is individually conflict-free, so the
express count is the full worker count and the `< 1` fallback threshold
(retained even when no second worker qualifies) never fires; and (2)
`get_timeslots` gives the same response whatever the parsed
`is_express_service` flag is, since the view does not forward the flag to
the filter. -/
theorem express_flag_never_removes_slots :
    (∀ (all_slots : List Slot) (jobs : List Job) (sd travel : Nat)
        (dets : List Nat),
      calculate_available_slots all_slots jobs sd travel true dets =
        calculate_available_slots all_slots jobs sd travel false dets) ∧
    (∀ (req : TimeslotsRequest) (db : List Detailer)
        (avails : List Availability) (jobs : List Job) (dist : Detailer → Rat)
        (b : Bool),
      get_timeslots { req with is_express_service := b } db avails jobs dist =
        get_timeslots req db avails jobs dist) :=
  ⟨fun all_slots jobs sd travel dets => calculate_express_eq jobs sd travel dets all_slots,
   fun _ _ _ _ _ _ => rfl⟩

/-- C6: `find_detailers_for_location` applies its three tiers strictly in
order over the trimmed inputs — exact case-insensitive country+city match
over active and verified workers; the alias tier only when the
normalization of the trimmed city is non-empty and differs from it; the
radius tier only when both coordinates are supplied — stops at the first
non-empty tier and reports it, and returns `([], none)` when the raw
country or city is empty or when every applicable tier comes up empty. -/
theorem resolver_tier_order (db : List Detailer) (country city : String)
    (lat lng : Option Rat) (avail : Option Bool) (radius : Rat)
    (dist : Detailer → Rat) :
    (country = "" ∨ city = "" →
      find_detailers_for_location db country city lat lng avail radius dist =
        ([], none)) ∧
    (country ≠ "" → city ≠ "" →
      (applyAvail avail (exactCityQuery db (pyStrip country) (pyStrip city)) ≠ [] →
        find_detailers_for_location db country city lat lng avail radius dist =
          (applyAvail avail (exactCityQuery db (pyStrip country) (pyStrip city)),
            some .exact)) ∧
      (applyAvail avail (exactCityQuery db (pyStrip country) (pyStrip city)) = [] →
        normalize_city_for_matching (pyStrip city) ≠ "" →
        normalize_city_for_matching (pyStrip city) ≠ pyStrip city →
        applyAvail avail (exactCityQuery db (pyStrip country)
          (normalize_city_for_matching (pyStrip city))) ≠ [] →
        find_detailers_for_location db country city lat lng avail radius dist =
          (applyAvail avail (exactCityQuery db (pyStrip country)
            (normalize_city_for_matching (pyStrip city))), some .normalized)) ∧
      (applyAvail avail (exactCityQuery db (pyStrip country) (pyStrip city)) = [] →
        (normalize_city_for_matching (pyStrip city) = "" ∨
          normalize_city_for_matching (pyStrip city) = pyStrip city ∨
          applyAvail avail (exactCityQuery db (pyStrip country)
            (normalize_city_for_matching (pyStrip city))) = []) →
        (∀ la, lat = some la → ∀ lo, lng = some lo →
          (get_detailers_within_radius db dist radius (pyStrip country) avail ≠ [] →
            find_detailers_for_location db country city lat lng avail radius dist =
              (get_detailers_within_radius db dist radius (pyStrip country) avail,
                some .radius)) ∧
          (get_detailers_within_radius db dist radius (pyStrip country) avail = [] →
            find_detailers_for_location db country city lat lng avail radius dist =
              ([], none))) ∧
        ((lat = none ∨ lng = none) →
          find_detailers_for_location db country city lat lng avail radius dist =
            ([], none)))) := by
  constructor
  · intro h
    simp only [find_detailers_for_location, if_pos h]
  · intro hc hci
    have hne : ¬ (country = "" ∨ city = "") := by
      intro h; rcases h with h | h
      · exact hc h
      · exact hci h
    refine ⟨?_, ?_, ?_⟩
    · intro h1
      simp only [find_detailers_for_location, if_neg hne, if_neg h1]
    · intro h1 hn1 hn2 h2
      simp only [find_detailers_for_location, if_neg hne, if_pos h1,
        if_pos (And.intro hn1 (And.intro hn2 h2))]
    · intro h1 hfail
      have hcond : ¬ (normalize_city_for_matching (pyStrip city) ≠ "" ∧
          normalize_city_for_matching (pyStrip city) ≠ pyStrip city ∧
          applyAvail avail (exactCityQuery db (pyStrip country)
            (normalize_city_for_matching (pyStrip city))) ≠ []) := by
        rcases hfail with h | h | h
        · intro hx; exact hx.1 h
        · intro hx; exact hx.2.1 h
        · intro hx; exact hx.2.2 h
      constructor
      · intro la hla lo hlo
        subst hla; subst hlo
        constructor
        · intro h3
          simp only [find_detailers_for_location, if_neg hne, if_pos h1,
            if_neg hcond, if_neg h3]
        · intro h3
          simp only [find_detailers_for_location, if_neg hne, if_pos h1,
            if_neg hcond, if_pos h3]
      · intro hnone
        rcases hnone with h | h
        · subst h
          simp only [find_detailers_for_location, if_neg hne, if_pos h1,
            if_neg hcond]
        · subst h
          cases lat with
          | none =>
            simp only [find_detailers_for_location, if_neg hne, if_pos h1,
              if_neg hcond]
          | some la =>
            simp only [find_detailers_for_location, if_neg hne, if_pos h1,
              if_neg hcond]

/-- Witness for C6: on the empty worker table with an empty country the
resolver short-circuits to `([], none)`, and with non-empty inputs and no
coordinates all tiers fail to `([], none)`. -/
theorem resolver_tier_order_witness :
    find_detailers_for_location [] "" "Dublin" none none none 30 (fun _ => 0) =
      ([], none) ∧
    find_detailers_for_location [] "Ireland" "Dublin" none none none 30
      (fun _ => 0) = ([], none) := by
  constructor
  · exact (resolver_tier_order [] "" "Dublin" none none none 30 (fun _ => 0)).1
      (Or.inl rfl)
  · exact (((resolver_tier_order [] "Ireland" "Dublin" none none none 30
      (fun _ => 0)).2 (by decide) (by decide)).2.2 (by decide)
      (by right; left; decide)).2 (Or.inl rfl)

/-- Characterization of the generator loop: with positive duration and the
window end plus buffer below 24:00, the loop (given enough fuel) returns
exactly the arithmetic sequence of slots the specification describes. -/
theorem generateLoop_correct (d b endT : Nat) (hd : 0 < d)
    (hcap : endT + b < 1440) :
    ∀ fuel current, endT - current < fuel →
      ∃ l : List Slot, generateLoop d b endT fuel current = some l ∧
        (∀ i : Nat, i < l.length ↔ current + i * (d + b) + d ≤ endT) ∧
        (∀ i : Nat, ∀ h : i < l.length,
          l.get ⟨i, h⟩ =
            ⟨current + i * (d + b), current + i * (d + b) + d, true⟩) := by
  intro fuel
  induction fuel with
  | zero => intro current hf; omega
  | succ fuel ih =>
    intro current hf
    by_cases h1 : current < endT
    · by_cases h2 : endT < current + d
      · refine ⟨[], ?_, ?_, ?_⟩
        · simp only [generateLoop, if_pos h1, if_pos h2]
        · intro i
          constructor
          · intro hi; cases hi
          · intro hle
            exfalso
            have hx : 0 ≤ i * (d + b) := Nat.zero_le _
            omega
        · intro i h; cases h
      · have h3 : ¬ (1440 ≤ current + d) := by omega
        have h4 : ¬ (1440 ≤ current + d + b) := by omega
        obtain ⟨l', hl', hiff, hget⟩ := ih (current + d + b) (by omega)
        refine ⟨⟨current, current + d, true⟩ :: l', ?_, ?_, ?_⟩
        · simp only [generateLoop, if_pos h1, if_neg h2, if_neg h3, if_neg h4,
            hl']
        · intro i
          cases i with
          | zero =>
            simp only [List.length_cons, Nat.zero_mul, Nat.zero_add]
            constructor
            · intro _; omega
            · intro _; omega
          | succ i =>
            have harith : current + (i + 1) * (d + b) + d =
                (current + d + b) + i * (d + b) + d := by
              rw [Nat.succ_mul]; ring
            rw [harith]
            simp only [List.length_cons, Nat.add_lt_add_iff_right]
            exact hiff i
        · intro i h
          cases i with
          | zero => simp
          | succ i =>
            have harith1 : current + (i + 1) * (d + b) =
                (current + d + b) + i * (d + b) := by
              rw [Nat.succ_mul]; ring
            have hlt : i < l'.length := by
              simpa using Nat.lt_of_succ_lt_succ h
            simp only [List.get_cons_succ]
            rw [hget i hlt, harith1]
    · refine ⟨[], ?_, ?_, ?_⟩
      · simp only [generateLoop, if_neg h1]
      · intro i
        constructor
        · intro hi; cases hi
        · intro hle
          exfalso
          have hx : 0 ≤ i * (d + b) := Nat.zero_le _
          omega
      · intro i h; cases h

/-- Totality of the generator loop for any duration when the window end
plus buffer stays below 24:00 (used for the default business-hours window,
where `end + buffer = 21:00 + 30 min`). -/
theorem generateLoop_total (d b endT : Nat) (hdb : 0 < d + b)
    (hcap : endT + b < 1440) :
    ∀ fuel current, endT - current < fuel →
      ∃ l, generateLoop d b endT fuel current = some l := by
  intro fuel
  induction fuel with
  | zero => intro current hf; omega
  | succ fuel ih =>
    intro current hf
    by_cases h1 : current < endT
    · by_cases h2 : endT < current + d
      · exact ⟨[], by simp only [generateLoop, if_pos h1, if_pos h2]⟩
      · have h3 : ¬ (1440 ≤ current + d) := by omega
        have h4 : ¬ (1440 ≤ current + d + b) := by omega
        obtain ⟨l', hl'⟩ := ih (current + d + b) (by omega)
        exact ⟨⟨current, current + d, true⟩ :: l',
          by simp only [generateLoop, if_pos h1, if_neg h2, if_neg h3,
            if_neg h4, hl']⟩
    · exact ⟨[], by simp only [generateLoop, if_neg h1]⟩

/-- C3 (amended with the bound `end + buffer < 24:00` that the
midnight-crash counterexample forces): for every window `[start, end)`,
positive duration `d` and buffer `b` with `end + b < 1440`,
`_generate_time_slots` returns exactly the sequence of slots
`[s_i, s_i + d)` with `s_i = start + i * (d + b)`, containing every index
with `s_i + d <= end` and nothing else; every slot ends by `end`, starts
are strictly increasing, and the sequence is empty when `d` alone exceeds
the window length. -/
theorem slot_generator_spec (start endT d b : Nat) (hd : 0 < d)
    (hcap : endT + b < 1440) :
    ∃ l : List Slot,
      generate_time_slots start endT d b = some l ∧
      (∀ i : Nat, i < l.length ↔ start + i * (d + b) + d ≤ endT) ∧
      (∀ i : Nat, ∀ h : i < l.length,
        l.get ⟨i, h⟩ = ⟨start + i * (d + b), start + i * (d + b) + d, true⟩) ∧
      (∀ sl ∈ l, sl.end_time ≤ endT) ∧
      l.Pairwise (fun a c => a.start_time < c.start_time) ∧
      (endT < start + d → l = []) := by
  obtain ⟨l, hl, hiff, hget⟩ :=
    generateLoop_correct d b endT hd hcap 1441 start (by omega)
  refine ⟨l, hl, hiff, hget, ?_, ?_, ?_⟩
  · intro sl hsl
    obtain ⟨⟨i, hlt⟩, hgi⟩ := List.mem_iff_get.mp hsl
    have := hget i hlt
    rw [hgi] at this
    have hend := (hiff i).mp hlt
    rw [this]
    exact hend
  · rw [List.pairwise_iff_get]
    intro i j hij
    rw [hget i.1 i.2, hget j.1 j.2]
    simp only
    have : i.1 * (d + b) < j.1 * (d + b) :=
      Nat.mul_lt_mul_of_lt_of_le hij (Nat.le_refl _) (by omega)
    omega
  · intro hshort
    have : ¬ (0 < l.length) := by
      intro h0
      have := (hiff 0).mp h0
      simp only [Nat.zero_mul, Nat.zero_add] at this
      omega
    cases l with
    | nil => rfl
    | cons a l => exact absurd (by simp) this

/-- C3 counterexample: the claim as stated (for every window, positive
duration and buffer) fails at the window 22:30-23:59 with duration 60 and
buffer 30.  Index 0 satisfies `s_0 + d <= end`, so the claimed sequence is
the one-element list `[22:30-23:30)`, but the code raises a `ValueError`
(`time(24, 0)`) while computing the next start and returns no sequence at
all. -/
theorem slot_generator_midnight_crash :
    generate_time_slots 1350 1439 60 30 = none ∧
    1350 + 0 * (60 + 30) + 60 ≤ 1439 := by
  decide

/-- Witness for C3 at the spec's example window 06:00-21:00 with duration
60 and buffer 30. -/
theorem slot_generator_spec_witness :
    ∃ l : List Slot,
      generate_time_slots 360 1260 60 30 = some l ∧
      (∀ i : Nat, i < l.length ↔ 360 + i * (60 + 30) + 60 ≤ 1260) ∧
      (∀ i : Nat, ∀ h : i < l.length,
        l.get ⟨i, h⟩ = ⟨360 + i * (60 + 30), 360 + i * (60 + 30) + 60, true⟩) ∧
      (∀ sl ∈ l, sl.end_time ≤ 1260) ∧
      l.Pairwise (fun a c => a.start_time < c.start_time) ∧
      (1260 < 360 + 60 → l = []) :=
  slot_generator_spec 360 1260 60 30 (by omega) (by omega)

/-- C5 (amended as the counterexample and the dead recheck force):
`_create_booking` does not use the section-4.2 resolver — its candidate
set is the case-sensitive exact filter on trimmed country and city over
active, verified, available workers, with no case-insensitive, alias or
radius fallback — and no worker, first or later, is ever selected: an
empty candidate set is answered with the "no available detailers" 400,
and any non-empty one crashes at the `Job.objects.filter(detailer=...)`
conflict lookup (a field `Job` does not have), answered with the generic
400, so the time-conflict answer and the created booking are
unreachable. -/
theorem booking_selection_first_only (req : BookingRequest)
    (db : List Detailer) (jobs : List Job) :
    (bookingEligible db (pyStrip req.country) (pyStrip req.city) = [] →
      create_booking req db jobs = .noDetailers) ∧
    (∀ (d : Detailer) (rest : List Detailer),
      bookingEligible db (pyStrip req.country) (pyStrip req.city) = d :: rest →
      create_booking req db jobs = .errorResponse) ∧
    (∀ d : Nat, create_booking req db jobs ≠ .created d) ∧
    create_booking req db jobs ≠ .timeConflict := by
  refine ⟨?_, ?_, ?_, ?_⟩
  · intro h
    simp only [create_booking, h]
  · intro d rest h
    simp only [create_booking, h]
  · intro d
    cases h : bookingEligible db (pyStrip req.country) (pyStrip req.city) with
    | nil => simp [create_booking, h]
    | cons a l => simp [create_booking, h]
  · cases h : bookingEligible db (pyStrip req.country) (pyStrip req.city) with
    | nil => simp [create_booking, h]
    | cons a l => simp [create_booking, h]

/-- Witness for C5: two eligible workers in the same city and a completely
free calendar, yet the request is answered with the generic 400 — neither
worker is assigned. -/
theorem booking_selection_first_only_witness :
    create_booking ⟨60, 0, 600, 660, "Ireland", "Dublin"⟩
      [⟨1, "Ireland", "Dublin", true, true, true, none, none⟩,
       ⟨2, "Ireland", "Dublin", true, true, true, none, none⟩]
      [] = .errorResponse :=
  (booking_selection_first_only ⟨60, 0, 600, 660, "Ireland", "Dublin"⟩
      [⟨1, "Ireland", "Dublin", true, true, true, none, none⟩,
       ⟨2, "Ireland", "Dublin", true, true, true, none, none⟩] []).2.1
    ⟨1, "Ireland", "Dublin", true, true, true, none, none⟩
    [⟨2, "Ireland", "Dublin", true, true, true, none, none⟩] (by decide)

/-- A location parameter that strips to a non-empty string survives the
view's normalization as its stripped value. -/
theorem normParam_some {s : String} (h : pyStrip s ≠ "") :
    normParam (some s) = some (pyStrip s) := by
  simp [normParam, h]

/-- With a missing date, or a country or city that is absent or strips to
the empty string, the body of `get_timeslots` answers the
missing-parameters 400 whatever the store holds. -/
theorem core_missing_params (sd : Nat) (dr : Option (Option Nat))
    (co ci : Option String) (la lo : Option Rat) (db : List Detailer)
    (avails : List Availability) (jobs : List Job) (dist : Detailer → Rat)
    (h : dr = none ∨ normParam co = none ∨ normParam ci = none) :
    get_timeslotsCore sd dr co ci la lo db avails jobs dist =
      .clientError .missingParams := by
  rcases h with h | h | h
  · subst h; rfl
  · cases dr with
    | none => rfl
    | some dr => simp [get_timeslotsCore, h]
  · cases dr with
    | none => rfl
    | some dr =>
      cases hco : normParam co with
      | none => simp [get_timeslotsCore, hco]
      | some cv => simp [get_timeslotsCore, hco, h]

/-- C9 (amended as the counterexample forces): `get_timeslots` rejects a
missing date, or a country or city that is absent or whitespace-only
(empty after stripping, matching the view's post-strip `all([...])`
check), with the missing-parameters 400, and a present-but-malformed date
with the bad-date 400 — in both cases independently of the worker,
availability and job tables, i.e. before any matching or slot
computation — and a non-numeric duration with a 400 from the raised
`ValueError`; but no positivity check on the duration exists (the
counterexample shows duration 0 being served). -/
theorem invalid_request_rejected_before_query :
    (∀ (req : TimeslotsRequest) (db : List Detailer)
        (avails : List Availability) (jobs : List Job) (dist : Detailer → Rat),
      req.service_duration ≠ some none →
      (req.date = none ∨ normParam req.country = none ∨
        normParam req.city = none) →
      get_timeslots req db avails jobs dist = .clientError .missingParams) ∧
    (∀ (db : List Detailer) (avails : List Availability) (jobs : List Job)
        (dist : Detailer → Rat) (sd : Nat) (c ci : String)
        (lat lng : Option Rat) (ex : Bool),
      pyStrip c ≠ "" → pyStrip ci ≠ "" →
      get_timeslots ⟨some none, some (some sd), some c, some ci, lat, lng, ex⟩
        db avails jobs dist = .clientError .badDate) ∧
    (∀ (req : TimeslotsRequest) (db : List Detailer)
        (avails : List Availability) (jobs : List Job) (dist : Detailer → Rat),
      req.service_duration = some none →
      get_timeslots req db avails jobs dist = .clientError .invalidParameter) := by
  refine ⟨?_, ?_, ?_⟩
  · intro req db avails jobs dist hsd hmiss
    obtain ⟨dte, sdr, co, ci, la, lo, ex⟩ := req
    simp only at hsd hmiss
    cases sdr with
    | none =>
      simp only [get_timeslots]
      exact core_missing_params 60 dte co ci la lo db avails jobs dist hmiss
    | some o =>
      cases o with
      | none => exact absurd rfl hsd
      | some v =>
        simp only [get_timeslots]
        exact core_missing_params v dte co ci la lo db avails jobs dist hmiss
  · intro db avails jobs dist sd c ci lat lng ex hc hci
    simp only [get_timeslots, get_timeslotsCore, normParam_some hc,
      normParam_some hci]
  · intro req db avails jobs dist hsd
    obtain ⟨dte, sdr, co, ci, la, lo, ex⟩ := req
    simp only at hsd
    subst hsd
    rfl

/-- Witness for C9: a request with no date at all is answered with the
missing-parameters 400 on the empty store. -/
theorem invalid_request_rejected_before_query_witness :
    get_timeslots ⟨none, none, some "Ireland", some "Dublin", none, none, false⟩
      [] [] [] (fun _ => 0) = .clientError .missingParams :=
  invalid_request_rejected_before_query.1
    ⟨none, none, some "Ireland", some "Dublin", none, none, false⟩
    [] [] [] (fun _ => 0) (by simp) (Or.inl rfl)

/-- A job whose own end plus buffer reaches 24:00 makes the per-job
`time` construction raise. -/
theorem jobConflict_none_of_overflow (s e : Nat) (j : Job)
    (h : 1440 ≤ j.appointment_time + j.duration + 30) :
    jobConflict s e 30 j = none := by
  simp only [jobConflict]
  by_cases h1 : 1440 ≤ j.appointment_time + j.duration
  · rw [if_pos h1]
  · rw [if_neg h1, if_pos h]

/-- A raising first job aborts `_calculate_available_slots` as soon as
there is at least one candidate slot. -/
theorem calculate_overflow_head (s : Slot) (rest : List Slot) (j : Job)
    (js : List Job) (sd : Nat)
    (h : jobConflict s.start_time s.end_time 30 j = none) :
    calculate_available_slots (s :: rest) (j :: js) sd 30 false [] = none := by
  simp only [calculate_available_slots, slotIsConflicting, checkConflicts, h]

/-- The baseline loop returns a verdict when every job's end plus buffer
stays below 24:00. -/
theorem checkConflicts_total (s e : Nat) :
    ∀ jobs : List Job,
      (∀ j ∈ jobs, j.appointment_time + j.duration + 30 < 1440) →
      ∃ c, checkConflicts s e 30 jobs = some c := by
  intro jobs
  induction jobs with
  | nil => intro _; exact ⟨false, rfl⟩
  | cons j rest ih =>
    intro h
    have hj := h j (List.mem_cons_self j rest)
    have h1 : ¬ (1440 ≤ j.appointment_time + j.duration) := by omega
    have h2 : ¬ (1440 ≤ j.appointment_time + j.duration + 30) := by omega
    obtain ⟨c, hc⟩ := ih (fun j' hm => h j' (List.mem_cons_of_mem j hm))
    by_cases htest : (decide (s < j.appointment_time + j.duration + 30) &&
        decide (j.appointment_time < e)) = true
    · refine ⟨true, ?_⟩
      simp only [checkConflicts, jobConflict, if_neg h1, if_neg h2, htest]
    · refine ⟨c, ?_⟩
      simp only [checkConflicts, jobConflict, if_neg h1, if_neg h2,
        Bool.not_eq_true] at htest ⊢
      rw [htest]
      exact hc

/-- The conflict filter returns a slot list (no `ValueError`) when every
job's end plus buffer stays below 24:00 and express is off. -/
theorem calculate_total (jobs : List Job) (sd : Nat)
    (hb : ∀ j ∈ jobs, j.appointment_time + j.duration + 30 < 1440) :
    ∀ slots : List Slot,
      ∃ r, calculate_available_slots slots jobs sd 30 false [] = some r := by
  intro slots
  induction slots with
  | nil => exact ⟨[], rfl⟩
  | cons s rest ih =>
    obtain ⟨r, hr⟩ := ih
    obtain ⟨c, hc⟩ := checkConflicts_total s.start_time s.end_time jobs hb
    cases c with
    | true =>
      refine ⟨r, ?_⟩
      simp only [calculate_available_slots, slotIsConflicting, hc]
      exact hr
    | false =>
      refine ⟨⟨s.start_time, s.end_time, true⟩ :: r, ?_⟩
      simp only [calculate_available_slots, slotIsConflicting, hc,
        Bool.false_and, Bool.false_eq_true, if_false, hr]

/-- C10 (amended as the counterexample forces): (1) when no availability
rows apply, the window admits at least one candidate and the FIRST live
job of the matched workers has start + own duration + 30 min reaching
24:00, `get_timeslots` fails with the invalid-parameter 400 instead of a
slot list; (2) when every live matched job ends (with buffer) strictly
before 24:00, that error branch is unreachable in the default-hours path;
(3) the Booking Transaction does not "fail likewise" because of the
overflow, nor does the bounded-bookings precondition make its failure
unreachable: its recheck never executes (the jobs queryset at
`booking.py:133` raises `FieldError`), so every request with a matching
worker gets the generic 400, and (4) the stored bookings are never
consulted at all — the outcome is the same on any two job tables, so a
booking crossing midnight plays no role in the booking path. -/
theorem midnight_overflow_behavior :
    (∀ (t sd : Nat) (c ci : String) (lat lng : Option Rat) (ex : Bool)
        (db : List Detailer) (avails : List Availability) (jobs : List Job)
        (dist : Detailer → Rat) (j : Job) (js : List Job),
      pyStrip c ≠ "" → pyStrip ci ≠ "" →
      (find_detailers_for_location db (pyStrip c) (pyStrip ci) lat lng none 30
        dist).1 ≠ [] →
      availabilityRows (find_detailers_for_location db (pyStrip c) (pyStrip ci)
        lat lng none 30 dist).1 t avails = [] →
      liveJobsRows (find_detailers_for_location db (pyStrip c) (pyStrip ci)
        lat lng none 30 dist).1 t jobs = j :: js →
      1440 ≤ j.appointment_time + j.duration + 30 →
      0 < sd → 360 + sd ≤ 1260 →
      get_timeslots ⟨some (some t), some (some sd), some c, some ci, lat, lng, ex⟩
        db avails jobs dist = .clientError .invalidParameter) ∧
    (∀ (t sd : Nat) (c ci : String) (lat lng : Option Rat) (ex : Bool)
        (db : List Detailer) (avails : List Availability) (jobs : List Job)
        (dist : Detailer → Rat),
      pyStrip c ≠ "" → pyStrip ci ≠ "" →
      availabilityRows (find_detailers_for_location db (pyStrip c) (pyStrip ci)
        lat lng none 30 dist).1 t avails = [] →
      (∀ j ∈ liveJobsRows (find_detailers_for_location db (pyStrip c)
          (pyStrip ci) lat lng none 30 dist).1 t jobs,
        j.appointment_time + j.duration + 30 < 1440) →
      ∀ k, get_timeslots ⟨some (some t), some (some sd), some c, some ci, lat,
        lng, ex⟩ db avails jobs dist ≠ .clientError k) ∧
    (∀ (req : BookingRequest) (db : List Detailer) (jobs : List Job)
        (d : Detailer) (rest : List Detailer),
      bookingEligible db (pyStrip req.country) (pyStrip req.city) = d :: rest →
      create_booking req db jobs = .errorResponse) ∧
    (∀ (req : BookingRequest) (db : List Detailer) (jobs jobs2 : List Job),
      create_booking req db jobs = create_booking req db jobs2) := by
  refine ⟨?_, ?_, ?_, ?_⟩
  · intro t sd c ci lat lng ex db avails jobs dist j js hc hci hdet havail
      hjobs hover hpos hfit
    obtain ⟨l, hl, hiff, hget⟩ := generateLoop_correct sd 30 1260 hpos
      (by omega) 1441 360 (by omega)
    have hlen : 0 < l.length := by
      rw [hiff 0]
      omega
    obtain ⟨s0, l0, rfl⟩ : ∃ s0 l0, l = s0 :: l0 := by
      cases l with
      | nil => cases hlen
      | cons a b => exact ⟨a, b, rfl⟩
    have hgen : generate_time_slots 360 1260 sd 30 = some (s0 :: l0) := hl
    have hcalc := calculate_overflow_head s0 l0 j js sd
      (jobConflict_none_of_overflow _ _ j hover)
    simp only [get_timeslots, get_timeslotsCore, normParam_some hc,
      normParam_some hci, if_neg hdet, havail, eq_self_iff_true, if_true,
      hgen, hjobs, hcalc]
  · intro t sd c ci lat lng ex db avails jobs dist hc hci havail hbound k
    simp only [get_timeslots, get_timeslotsCore, normParam_some hc,
      normParam_some hci]
    by_cases hdet : (find_detailers_for_location db (pyStrip c) (pyStrip ci)
        lat lng none 30 dist).1 = []
    · rw [if_pos hdet]
      intro h; cases h
    · obtain ⟨l, hl⟩ := generateLoop_total sd 30 1260 (by omega) (by omega)
        1441 360 (by omega)
      have hgen : generate_time_slots 360 1260 sd 30 = some l := hl
      obtain ⟨r, hr⟩ := calculate_total _ sd hbound l
      simp only [if_neg hdet, havail, eq_self_iff_true, if_true, hgen, hr]
      by_cases hre : r = []
      · rw [if_pos hre]; intro h; cases h
      · rw [if_neg hre]; intro h; cases h
  · intro req db jobs d rest helig
    simp only [create_booking, helig]
  · intro req db jobs jobs2
    rfl

/-- Witness for C10 at concrete inputs: a live job at 23:00 of own
duration 120 makes `get_timeslots` (duration 60) fail with the
invalid-parameter 400, while a booking request against the same worker is
answered with the generic 400 (the booking path crashes at its jobs
queryset before any time arithmetic). -/
theorem midnight_overflow_behavior_witness :
    get_timeslots ⟨some (some 0), some (some 60), some "Ireland",
        some "Dublin", none, none, false⟩
      [⟨1, "Ireland", "Dublin", true, true, true, none, none⟩] []
      [⟨1, 0, 1380, 120, .accepted⟩] (fun _ => 0) =
      .clientError .invalidParameter ∧
    create_booking ⟨500, 0, 360, 860, "Ireland", "Dublin"⟩
      [⟨1, "Ireland", "Dublin", true, true, true, none, none⟩]
      [⟨1, 0, 1000, 60, .pending⟩] = .errorResponse := by
  constructor
  · exact midnight_overflow_behavior.1 0 60 "Ireland" "Dublin" none none false
      [⟨1, "Ireland", "Dublin", true, true, true, none, none⟩] []
      [⟨1, 0, 1380, 120, .accepted⟩] (fun _ => 0)
      ⟨1, 0, 1380, 120, .accepted⟩ [] (by decide) (by decide) (by decide)
      (by decide) (by decide) (by decide) (by omega) (by omega)
  · exact midnight_overflow_behavior.2.2.1
      ⟨500, 0, 360, 860, "Ireland", "Dublin"⟩
      [⟨1, "Ireland", "Dublin", true, true, true, none, none⟩]
      [⟨1, 0, 1000, 60, .pending⟩]
      ⟨1, "Ireland", "Dublin", true, true, true, none, none⟩ [] (by decide)

end Prisma
